import Mathlib

set_option maxRecDepth 8192

/-!
Verification development for the electric-maple remote-rendering pipeline.

Server side (`src/server/src/ems/gst/ems_gstreamer_pipeline.c`): the RTP
header-extension stamper pad probe (`webrtcbin_srcpad_probe`), the probe
installation on client connect (`webrtc_client_connected_cb` /
`ems_gstreamer_pipeline_add_payload_pad_probe`), and the DownMessage
publication slot (`ems_gstreamer_pipeline_set_down_msg`).

Client side (`src/unnamed/part_000`): the remote-experience render loop
(`em_remote_experience_poll_and_render_frame` and its inner render), the
UpMessage emitter (`em_remote_experience_emit_upmessage`), and the pose /
frame-timing reports.

External calls (OpenXR, GStreamer, GLib, clock) are modelled by an explicit
environment record carrying each call's outcome; the loop body is a pure
function from the environment and the experience state to a trace of calls
plus either a returned result or an aborted marker (`std::abort`).
-/

namespace ElectricMaple

/-! ## Server: RTP extension stamper (`webrtcbin_srcpad_probe`) -/

/-- `GstPadProbeReturn` values (GStreamer).  The stamper probe only ever
returns `ok`. -/
inductive GstPadProbeReturn
  | ok
  | dropBuffer
  | removeProbe
  | passBuffer
  | handled
deriving DecidableEq, BEq

/-- An RTP packet as the payloader src-pad probe sees it: the marker bit,
whether `gst_rtp_buffer_map` succeeds on the buffer, the list of two-byte-form
header extension elements (element id paired with element data), and the
payload bytes. -/
structure RTPPacket where
  marker : Bool
  mappable : Bool
  extensions : List (Nat × List Nat)
  payload : List Nat
deriving DecidableEq, BEq

/-- `RTP_TWOBYTES_HDR_EXT_ID` from `ems_gstreamer_pipeline.c`; must be in
the range [1,15]. -/
def RTP_TWOBYTES_HDR_EXT_ID : Nat := 1

/-- `RTP_TWOBYTES_HDR_EXT_MAX_SIZE` from `ems_gstreamer_pipeline.c`. -/
def RTP_TWOBYTES_HDR_EXT_MAX_SIZE : Nat := 255

/-- GStreamer's `gst_rtp_buffer_add_extension_twobytes_header` (external
library call, modelled per its contract): appends exactly one two-byte-form
header extension element carrying `data` under element id `id`; succeeds when
the id is in [1,15] and the data fits a single element (length ≤ 255). -/
def gst_rtp_buffer_add_extension_twobytes_header (id : Nat) (data : List Nat)
    (p : RTPPacket) : Option RTPPacket :=
  if 1 ≤ id ∧ id ≤ 15 ∧ data.length ≤ 255 then
    some { p with extensions := p.extensions ++ [(id, data)] }
  else
    none

/-- The stamper pad probe, `webrtcbin_srcpad_probe` (lines 250-302).
`downMsg_bytes` is the pipeline's published `GBytes` slot (`none` models the
field still being `NULL`).  Result `none` models the undefined read
`g_bytes_get_data(NULL, ...)`; otherwise the possibly stamped packet is
returned together with the probe return value.  Control flow follows the
source: map failure passes the buffer through; a clear marker bit passes the
buffer through; oversize extension data passes the buffer through; otherwise
one extension element is appended. -/
def webrtcbin_srcpad_probe (downMsg_bytes : Option (List Nat)) (p : RTPPacket) :
    Option (RTPPacket × GstPadProbeReturn) :=
  if p.mappable then
    if p.marker then
      match downMsg_bytes with
      | none => none
      | some extYtes =>
        if RTP_TWOBYTES_HDR_EXT_MAX_SIZE < extYtes.length then
          some (p, GstPadProbeReturn.ok)
        else
          match gst_rtp_buffer_add_extension_twobytes_header
              RTP_TWOBYTES_HDR_EXT_ID extYtes p with
          | none => some (p, GstPadProbeReturn.ok)
          | some p2 => some (p2, GstPadProbeReturn.ok)
    else
      some (p, GstPadProbeReturn.ok)
  else
    some (p, GstPadProbeReturn.ok)

/-- Feed a stream of RTP packets through the stamper probe with a published
DownMessage, collecting the (possibly stamped) output packets.  The `none`
branch of the probe cannot fire because the DownMessage is published. -/
def stampStream (downMsg : List Nat) : List RTPPacket → List RTPPacket
  | [] => []
  | p :: ps =>
    match webrtcbin_srcpad_probe (some downMsg) p with
    | some (p2, _) => p2 :: stampStream downMsg ps
    | none => p :: stampStream downMsg ps

/-- Whether a packet carries a header extension element with the stamper's
element id. -/
def hasStamp (p : RTPPacket) : Bool :=
  p.extensions.any (fun e => e.1 == RTP_TWOBYTES_HDR_EXT_ID)

/-! ## Server: probe installation on client connect -/

/-- The part of the server pipeline state that the connect path touches: the
number of pad probes attached to the `rtppay` src pad, the number of
`webrtcbin` elements added, and whether the pipeline contains an element
named `rtppay` (it always does: the launch string in
`ems_gstreamer_pipeline_create` contains `rtph264pay name=rtppay`). -/
structure EmsPipelineState where
  rtppayProbes : Nat
  webrtcbinCount : Nat
  hasRtppay : Bool
deriving DecidableEq, BEq

/-- `ems_gstreamer_pipeline_add_payload_pad_probe` (lines 304-325): look up
`rtppay`, take its static src pad, and call `gst_pad_add_probe` on it —
unconditionally; there is no check for an already-installed probe. -/
def ems_gstreamer_pipeline_add_payload_pad_probe (s : EmsPipelineState) :
    EmsPipelineState × Bool :=
  if s.hasRtppay then
    ({ s with rtppayProbes := s.rtppayProbes + 1 }, true)
  else
    (s, false)

/-- `webrtc_client_connected_cb` (lines 328-397): create a `webrtcbin`, the
data channel, the transceiver, the offer (all abstracted to the element
count), then call `ems_gstreamer_pipeline_add_payload_pad_probe`. -/
def webrtc_client_connected_cb (s : EmsPipelineState) : EmsPipelineState :=
  let s2 := { s with webrtcbinCount := s.webrtcbinCount + 1 }
  (ems_gstreamer_pipeline_add_payload_pad_probe s2).1

/-- Pipeline state as `ems_gstreamer_pipeline_create` leaves it: no client
`webrtcbin` yet, no pad probe yet, `rtppay` present in the launch string. -/
def emsPipelineInitial : EmsPipelineState :=
  { rtppayProbes := 0, webrtcbinCount := 0, hasRtppay := true }

/-- Process `n` consecutive client-connected signals. -/
def processClientConnections : Nat → EmsPipelineState → EmsPipelineState
  | 0, s => s
  | n + 1, s => processClientConnections n (webrtc_client_connected_cb s)

/-! ## Server: the DownMessage publication slot -/

/-- `ems_gstreamer_pipeline_set_down_msg` (lines 622-641), sequential view.
`enc` is the outcome of `pb_encode` on the caller's DownMessage (`none` when
encoding fails).  On encode failure the function logs and returns, leaving
the slot untouched; on success the old `GBytes` is dropped and the freshly
allocated bytes are published. -/
def ems_gstreamer_pipeline_set_down_msg (enc : Option (List Nat))
    (slot : Option (List Nat)) : Option (List Nat) :=
  match enc with
  | none => slot
  | some buf => some buf

/-- The slot after a sequence of `set_down_msg` calls with the given encode
outcomes, starting from `ems_gstreamer_pipeline_create`'s initialization
`egp->downMsg_bytes = NULL` (line 766). -/
def runSetDownMsgs (encs : List (Option (List Nat))) : Option (List Nat) :=
  encs.foldl (fun slot e => ems_gstreamer_pipeline_set_down_msg e slot) none

/-! ## Server: interleaving model of `set_down_msg` against the probe

`ems_gstreamer_pipeline_set_down_msg` runs on a producer thread while
`webrtcbin_srcpad_probe` fires on the streaming thread.  The body of
`set_down_msg` (lines 635-640) performs three separate plain stores with no
atomics and no reader tracking:
  w0: `g_bytes_unref(egp->downMsg_bytes)` — the slot holds the only
      reference (the probe reads without taking one), so this frees the
      published buffer;
  w1: `egp->downMsg_bytes = NULL`;
  w2: `egp->downMsg_bytes = g_bytes_new(...)`.
The probe's read (line 279) decomposes into
  r0: load the pointer `egp->downMsg_bytes`;
  r1: dereference it via `g_bytes_get_data`.
Buffer ids: `0` is the initially published buffer, `1` the replacement. -/

/-- Thread names in the race model. -/
inductive RaceTid
  | writer
  | reader
deriving DecidableEq, BEq

/-- Shared state of the race model: the published slot, whether buffer 0 has
been freed, both program counters, the probe's loaded pointer, and whether
the probe dereferenced a freed or `NULL` pointer. -/
structure RaceState where
  slot : Option Nat
  freed0 : Bool
  writerPC : Nat
  readerPC : Nat
  readerPtr : Option Nat
  readerSawBad : Bool
deriving DecidableEq, BEq

/-- Initial race state: buffer 0 published with a single owning reference,
both threads at their first step. -/
def raceInit : RaceState :=
  { slot := some 0
    freed0 := false
    writerPC := 0
    readerPC := 0
    readerPtr := none
    readerSawBad := false }

/-- One atomic step of the chosen thread (see the block comment above for
the correspondence with the source lines). -/
def raceStep (s : RaceState) : RaceTid → RaceState
  | RaceTid.writer =>
    match s.writerPC with
    | 0 =>
      match s.slot with
      | some 0 => { s with freed0 := true, writerPC := 1 }
      | _ => { s with writerPC := 1 }
    | 1 => { s with slot := none, writerPC := 2 }
    | 2 => { s with slot := some 1, writerPC := 3 }
    | _ => s
  | RaceTid.reader =>
    match s.readerPC with
    | 0 => { s with readerPtr := s.slot, readerPC := 1 }
    | 1 =>
      { s with
        readerPC := 2
        readerSawBad := s.readerSawBad ||
          (match s.readerPtr with
           | none => true
           | some 0 => s.freed0
           | some _ => false) }
    | _ => s

/-- Run the race model under an explicit schedule. -/
def raceRun (sched : List RaceTid) : RaceState :=
  sched.foldl raceStep raceInit

/-! ## Client: data model of the render loop -/

/-- An `XrPosef`: orientation quaternion and position.  The scalar components
are only ever copied by the code under study, so they are modelled as
integers. -/
structure XrPosef where
  qx : Int
  qy : Int
  qz : Int
  qw : Int
  px : Int
  py : Int
  pz : Int
deriving DecidableEq, BEq

/-- The all-zero pose produced by C aggregate zero-initialization. -/
def XrPosef.zero : XrPosef :=
  { qx := 0, qy := 0, qz := 0, qw := 0, px := 0, py := 0, pz := 0 }

/-- An `XrFovf`; components only copied, modelled as integers. -/
structure XrFovf where
  angleLeft : Int
  angleRight : Int
  angleUp : Int
  angleDown : Int
deriving DecidableEq, BEq

/-- An `XrView` as filled in by `xrLocateViews`: pose and field of view. -/
structure XrView where
  pose : XrPosef
  fov : XrFovf
deriving DecidableEq, BEq

/-- `XR_ENVIRONMENT_BLEND_MODE_OPAQUE`. -/
def XR_ENVIRONMENT_BLEND_MODE_OPAQUE : Nat := 1

/-- `XR_ENVIRONMENT_BLEND_MODE_ADDITIVE`. -/
def XR_ENVIRONMENT_BLEND_MODE_ADDITIVE : Nat := 2

/-- `XR_ENVIRONMENT_BLEND_MODE_ALPHA_BLEND`. -/
def XR_ENVIRONMENT_BLEND_MODE_ALPHA_BLEND : Nat := 3

/-- A decoded sample (`struct em_sample`): decoder texture, the stereo poses
lifted from the RTP extension, blend-mode metadata and the frame sequence
id. -/
structure em_sample where
  frame_texture_id : Nat
  frame_texture_target : Nat
  pose0 : XrPosef
  pose1 : XrPosef
  env_blend_mode : Nat
  additive_black_threshold : Int
  frame_sequence_id : Int
deriving DecidableEq, BEq

/-- An `XrCompositionLayerProjectionView`: pose, fov and the sub-image
rectangle into the shared side-by-side swapchain image. -/
structure XrCompositionLayerProjectionView where
  pose : XrPosef
  fov : XrFovf
  imageRectOffsetX : Int
  imageRectOffsetY : Int
  imageRectExtentW : Int
  imageRectExtentH : Int
deriving DecidableEq, BEq

/-- The zero-initialized projection view produced by the aggregate
initializer at the top of `em_remote_experience_poll_and_render_frame`
(lines 936-939): every member not mentioned is value-initialized to zero,
including the pose. -/
def XrCompositionLayerProjectionView.zeroInit : XrCompositionLayerProjectionView :=
  { pose := XrPosef.zero
    fov := { angleLeft := 0, angleRight := 0, angleUp := 0, angleDown := 0 }
    imageRectOffsetX := 0
    imageRectOffsetY := 0
    imageRectExtentW := 0
    imageRectExtentH := 0 }

/-- `EmPollRenderResult` (values used in `part_000`). -/
inductive EmPollRenderResult
  | errorWaitframe
  | errorEgl
  | shouldNotRender
  | noSampleAvailable
  | reusedSample
  | newSample
deriving DecidableEq, BEq

/-- Modelled from the spec: `em_poll_render_result_include_layer` is declared
in a client header that is not among the sources; per the spec (step 9 of the
render loop) the projection layer is included exactly when the inner render
signalled `NEW_SAMPLE` or `REUSED_SAMPLE`. -/
def em_poll_render_result_include_layer (r : EmPollRenderResult) : Bool :=
  r == EmPollRenderResult.newSample || r == EmPollRenderResult.reusedSample

/-- Modelled from the spec: the passthrough policy (`em_passthrough`) is not
among the sources.  Spec §4.9: its state is a blend mode; `composition_layer`
yields an optional passthrough layer to insert beneath the projection (absent
in OPAQUE mode) and the environment blend mode to submit.  Input is the
policy's current blend mode; output is (passthrough layer present, blend
mode to submit). -/
def passthrough_composition_layer (m : Nat) : Bool × Nat :=
  (m != XR_ENVIRONMENT_BLEND_MODE_OPAQUE, m)

/-- An `em_proto_UpMessage` as the client builds it: the id stamped at emit
time, and either a tracking payload or a frame-timing payload. -/
structure UpMessage where
  up_message_id : Int
  has_tracking : Bool
  tracking_pose : XrPosef
  has_frame : Bool
  frame_sequence_id : Int
  decode_complete_time : Int
  begin_frame_time : Int
  display_time : Int
deriving DecidableEq, BEq

/-- The remote-experience state the render loop reads and writes: the held
previous sample, the `std::atomic_int64_t nextUpMessage` counter (kept as its
64-bit two's-complement bit pattern, a natural number below 2^64), the
passthrough policy's blend mode, and the eye extents. -/
structure EmRemoteExperience where
  prev_sample : Option em_sample
  nextUpMessage : Nat
  passthroughBlend : Nat
  eyeWidth : Int
  eyeHeight : Int
deriving DecidableEq, BEq

/-- Signed 64-bit value of a bit pattern (two's complement). -/
def int64OfBits (c : Nat) : Int :=
  if c < 2 ^ 63 then (c : Int) else (c : Int) - 2 ^ 64

/-- `em_remote_experience_emit_upmessage` (lines 622-638): draw
`nextUpMessage++` (a 64-bit atomic fetch-add, wrapping modulo 2^64), stamp it
into the message, encode and send.  Returns the drawn id, the message as
transmitted, and the updated state. -/
def em_remote_experience_emit_upmessage (exp : EmRemoteExperience)
    (msg : UpMessage) : Int × UpMessage × EmRemoteExperience :=
  let message_id := int64OfBits exp.nextUpMessage
  (message_id, { msg with up_message_id := message_id },
    { exp with nextUpMessage := (exp.nextUpMessage + 1) % 2 ^ 64 })

/-- Emit a sequence of UpMessages, collecting the assigned ids in emission
order. -/
def emitRun (exp : EmRemoteExperience) : List UpMessage → List Int × EmRemoteExperience
  | [] => ([], exp)
  | m :: ms =>
    let r := em_remote_experience_emit_upmessage exp m
    let rest := emitRun r.2.2 ms
    (r.1 :: rest.1, rest.2)

/-- A freshly constructed experience's counter: `std::atomic_int64_t
nextUpMessage{1}`. -/
def nextUpMessageInitial : Nat := 1

/-! ## Client: the render loop as a trace-producing function -/

/-- Environment of one loop iteration: the outcome of every external call the
body makes, in source order. -/
structure PollEnv where
  waitFrameOk : Bool
  shouldRender : Bool
  predictedDisplayTime : Int
  beginFrameOk : Bool
  clockOk : Bool
  beginFrameTime : Int
  locateViewsOk : Bool
  view0 : XrView
  view1 : XrView
  eglBeginOk : Bool
  pulled : Option (em_sample × Int)
  acquireOk : Bool
  imageIndex : Nat
  waitImageOk : Bool
  convertDecodeTimeOk : Bool
  convertBeginTimeOk : Bool
  locateSpaceOk : Bool
  hmdPose : XrPosef
  sendOk : Bool
deriving DecidableEq, BEq

/-- Events recorded by one loop iteration, in call order. -/
inductive XrEv
  | evWaitFrame (ok : Bool)
  | evBeginFrame (ok : Bool)
  | evClockGettime (ok : Bool)
  | evLocateViews (ok : Bool)
  | evEglBegin (ok : Bool)
  | evAcquire (ok : Bool)
  | evWaitImage (ok : Bool)
  | evDraw (texture : Nat)
  | evReleaseImage
  | evReleaseSample
  | evEndFrame (layerCount : Nat) (blend : Nat)
      (proj : Option (XrPosef × XrPosef))
  | evEglEnd
  | evSendUp (id : Int) (isFrameReport : Bool)
deriving DecidableEq, BEq

/-- Outcome of one loop iteration: either the process aborted
(`std::abort`), or the iteration returned a result with the updated state;
both carry the trace of external calls made. -/
inductive PollOutcome
  | aborted (trace : List XrEv)
  | returned (res : EmPollRenderResult) (exp : EmRemoteExperience)
      (trace : List XrEv)
deriving DecidableEq, BEq

/-- `report_frame_timing` (lines 989-1017): convert the decode-complete and
begin-frame timestamps; on either conversion failing, log and return without
emitting; otherwise build the frame-timing UpMessage and emit it. -/
def report_frame_timing (env : PollEnv) (exp : EmRemoteExperience)
    (decodeEndTime : Int) (fsid : Int) : EmRemoteExperience × List XrEv :=
  if env.convertDecodeTimeOk then
    if env.convertBeginTimeOk then
      let msg : UpMessage :=
        { up_message_id := 0
          has_tracking := false
          tracking_pose := XrPosef.zero
          has_frame := true
          frame_sequence_id := fsid
          decode_complete_time := decodeEndTime
          begin_frame_time := env.beginFrameTime
          display_time := env.predictedDisplayTime }
      let r := em_remote_experience_emit_upmessage exp msg
      (r.2.2, [XrEv.evSendUp r.1 true])
    else (exp, [])
  else (exp, [])

/-- `em_remote_experience_report_pose` (lines 640-679): locate the view space
in the world space at the predicted display time; on failure log and return;
otherwise emit a tracking UpMessage. -/
def em_remote_experience_report_pose (env : PollEnv) (exp : EmRemoteExperience) :
    EmRemoteExperience × List XrEv :=
  if env.locateSpaceOk then
    let msg : UpMessage :=
      { up_message_id := 0
        has_tracking := true
        tracking_pose := env.hmdPose
        has_frame := false
        frame_sequence_id := 0
        decode_complete_time := 0
        begin_frame_time := 0
        display_time := 0 }
    let r := em_remote_experience_emit_upmessage exp msg
    (r.2.2, [XrEv.evSendUp r.1 false])
  else (exp, [])

/-- Result of the inner render: the render result, the projection views as
left behind (poses are only written on the new-sample path), updated state,
trace, and whether the body called `std::abort`. -/
structure InnerOut where
  res : EmPollRenderResult
  pv0 : XrCompositionLayerProjectionView
  pv1 : XrCompositionLayerProjectionView
  exp : EmRemoteExperience
  trace : List XrEv
  didAbort : Bool
deriving DecidableEq, BEq

/-- `em_remote_experience_inner_poll_and_render_frame` (lines 1019-1138).
The fov and sub-image rectangles are written into the projection views
first (lines 1047-1056); then `try_pull_sample`: with no new sample the
function returns `REUSED_SAMPLE` if a previous sample is held and
`NO_SAMPLE_AVAILABLE` otherwise — in both cases before the poses are
written.  With a new sample the blend policy is updated (when the sample
carries a non-UNSET mode), the sample poses are written into the projection
views, the swapchain image is acquired and waited (either failing aborts),
the draw is issued, the image released, the previous sample released and the
new one adopted, and the frame-timing report emitted. -/
def em_remote_experience_inner_poll_and_render_frame (env : PollEnv)
    (exp : EmRemoteExperience)
    (pv0 pv1 : XrCompositionLayerProjectionView) : InnerOut :=
  let w := exp.eyeWidth
  let h := exp.eyeHeight
  let pv0a := { pv0 with
                fov := env.view0.fov
                imageRectOffsetX := 0
                imageRectOffsetY := 0
                imageRectExtentW := w
                imageRectExtentH := h }
  let pv1a := { pv1 with
                fov := env.view1.fov
                imageRectOffsetX := w
                imageRectOffsetY := 0
                imageRectExtentW := w
                imageRectExtentH := h }
  match env.pulled with
  | none =>
    if exp.prev_sample.isSome then
      { res := EmPollRenderResult.reusedSample
        pv0 := pv0a
        pv1 := pv1a
        exp := exp
        trace := []
        didAbort := false }
    else
      { res := EmPollRenderResult.noSampleAvailable
        pv0 := pv0a
        pv1 := pv1a
        exp := exp
        trace := []
        didAbort := false }
  | some (sample, decodeEndTime) =>
    let exp2 :=
      if sample.env_blend_mode ≠ 0 then
        { exp with passthroughBlend := sample.env_blend_mode }
      else exp
    let pv0b := { pv0a with pose := sample.pose0 }
    let pv1b := { pv1a with pose := sample.pose1 }
    if env.acquireOk then
      if env.waitImageOk then
        let rel : List XrEv :=
          if exp2.prev_sample.isSome then [XrEv.evReleaseSample] else []
        let exp3 := { exp2 with prev_sample := some sample }
        let rep := report_frame_timing env exp3 decodeEndTime sample.frame_sequence_id
        { res := EmPollRenderResult.newSample
          pv0 := pv0b
          pv1 := pv1b
          exp := rep.1
          trace := [XrEv.evAcquire true, XrEv.evWaitImage true,
                    XrEv.evDraw sample.frame_texture_id, XrEv.evReleaseImage]
                   ++ rel ++ rep.2
          didAbort := false }
      else
        { res := EmPollRenderResult.newSample
          pv0 := pv0b
          pv1 := pv1b
          exp := exp2
          trace := [XrEv.evAcquire true, XrEv.evWaitImage false]
          didAbort := true }
    else
      { res := EmPollRenderResult.newSample
        pv0 := pv0b
        pv1 := pv1b
        exp := exp2
        trace := [XrEv.evAcquire false]
        didAbort := true }

/-- `em_remote_experience_poll_and_render_frame` (lines 882-987).  Source
order: `xrWaitFrame` (failure returns `ERROR_WAITFRAME`), `xrBeginFrame`
(failure aborts), `clock_gettime` (failure returns `SHOULD_NOT_RENDER`),
`xrLocateViews` (failure returns `SHOULD_NOT_RENDER`), zero-initialization of
the projection views, EGL context acquisition (failure returns `ERROR_EGL`);
then, only when `shouldRender`, the inner render followed by the passthrough
policy's composition layer and the layer array; `xrEndFrame` with the
accumulated layer count and blend mode (layer count 0 and OPAQUE when
`shouldRender` is false); EGL release; and the pose report. -/
def em_remote_experience_poll_and_render_frame (env : PollEnv)
    (exp : EmRemoteExperience) : PollOutcome :=
  if env.waitFrameOk then
    if env.beginFrameOk then
      if env.clockOk then
        if env.locateViewsOk then
          let tr1 : List XrEv :=
            [XrEv.evWaitFrame true, XrEv.evBeginFrame true,
             XrEv.evClockGettime true, XrEv.evLocateViews true]
          if env.eglBeginOk then
            let tr2 := tr1 ++ [XrEv.evEglBegin true]
            if env.shouldRender then
              let ir := em_remote_experience_inner_poll_and_render_frame env exp
                XrCompositionLayerProjectionView.zeroInit
                XrCompositionLayerProjectionView.zeroInit
              if ir.didAbort then
                PollOutcome.aborted (tr2 ++ ir.trace)
              else
                let pl := passthrough_composition_layer ir.exp.passthroughBlend
                let includeProj := em_poll_render_result_include_layer ir.res
                let layerCount :=
                  (if pl.1 then 1 else 0) + (if includeProj then 1 else 0)
                let projOpt :=
                  if includeProj then some (ir.pv0.pose, ir.pv1.pose) else none
                let rp := em_remote_experience_report_pose env ir.exp
                PollOutcome.returned ir.res rp.1
                  (tr2 ++ ir.trace
                    ++ [XrEv.evEndFrame layerCount pl.2 projOpt, XrEv.evEglEnd]
                    ++ rp.2)
            else
              let rp := em_remote_experience_report_pose env exp
              PollOutcome.returned EmPollRenderResult.shouldNotRender rp.1
                (tr2 ++ [XrEv.evEndFrame 0 XR_ENVIRONMENT_BLEND_MODE_OPAQUE none,
                         XrEv.evEglEnd]
                  ++ rp.2)
          else
            PollOutcome.returned EmPollRenderResult.errorEgl exp
              (tr1 ++ [XrEv.evEglBegin false])
        else
          PollOutcome.returned EmPollRenderResult.shouldNotRender exp
            [XrEv.evWaitFrame true, XrEv.evBeginFrame true,
             XrEv.evClockGettime true, XrEv.evLocateViews false]
      else
        PollOutcome.returned EmPollRenderResult.shouldNotRender exp
          [XrEv.evWaitFrame true, XrEv.evBeginFrame true, XrEv.evClockGettime false]
    else
      PollOutcome.aborted [XrEv.evWaitFrame true, XrEv.evBeginFrame false]
  else
    PollOutcome.returned EmPollRenderResult.errorWaitframe exp
      [XrEv.evWaitFrame false]

/-! ## Projections over poll outcomes, used to state the claims -/

/-- Whether the iteration ended in `std::abort`. -/
def PollOutcome.isAborted : PollOutcome → Bool
  | PollOutcome.aborted _ => true
  | PollOutcome.returned _ _ _ => false

/-- The returned render result, when the iteration returned. -/
def pollResult : PollOutcome → Option EmPollRenderResult
  | PollOutcome.aborted _ => none
  | PollOutcome.returned r _ _ => some r

/-- The trace of external calls of the iteration. -/
def pollTrace : PollOutcome → List XrEv
  | PollOutcome.aborted tr => tr
  | PollOutcome.returned _ _ tr => tr

/-- The held previous sample after the iteration, when it returned. -/
def pollPrevSample : PollOutcome → Option em_sample
  | PollOutcome.aborted _ => none
  | PollOutcome.returned _ e _ => e.prev_sample

/-- First projection-view pose pair submitted by a frame-end event in a
trace (skipping frame-ends whose layer array has no projection layer). -/
def firstProjPoses : List XrEv → Option (XrPosef × XrPosef)
  | [] => none
  | XrEv.evEndFrame _ _ (some pq) :: _ => some pq
  | _ :: tl => firstProjPoses tl

/-- Projection-view poses carried by the first submitted frame-end of the
trace whose layer array includes the projection layer. -/
def submittedProj (o : PollOutcome) : Option (XrPosef × XrPosef) :=
  firstProjPoses (pollTrace o)

/-- Recognize `xrBeginFrame` calls in a trace. -/
def isBeginFrameEv : XrEv → Bool
  | XrEv.evBeginFrame _ => true
  | _ => false

/-- Recognize `xrEndFrame` calls in a trace. -/
def isEndFrameEv : XrEv → Bool
  | XrEv.evEndFrame _ _ _ => true
  | _ => false

/-- Recognize UpMessage transmissions in a trace. -/
def isSendUpEv : XrEv → Bool
  | XrEv.evSendUp _ _ => true
  | _ => false

/-- Recognize draw calls in a trace. -/
def isDrawEv : XrEv → Bool
  | XrEv.evDraw _ => true
  | _ => false

/-- Recognize swapchain-image acquisitions in a trace. -/
def isAcquireEv : XrEv → Bool
  | XrEv.evAcquire _ => true
  | _ => false

/-- Concrete environment for the client-loop theorems of the C3 claim:
`xrWaitFrame` succeeds with `shouldRender = false`, and `xrLocateViews`
fails. -/
def envC3x : PollEnv :=
  { waitFrameOk := true
    shouldRender := false
    predictedDisplayTime := 1000
    beginFrameOk := true
    clockOk := true
    beginFrameTime := 900
    locateViewsOk := false
    view0 := XrView.mk XrPosef.zero (XrFovf.mk 0 0 0 0)
    view1 := XrView.mk XrPosef.zero (XrFovf.mk 0 0 0 0)
    eglBeginOk := true
    pulled := none
    acquireOk := true
    imageIndex := 0
    waitImageOk := true
    convertDecodeTimeOk := true
    convertBeginTimeOk := true
    locateSpaceOk := true
    hmdPose := XrPosef.zero
    sendOk := true }

/-- Experience state used by the C3 test iterations. -/
def expC3x : EmRemoteExperience :=
  { prev_sample := none
    nextUpMessage := 1
    passthroughBlend := 1
    eyeWidth := 100
    eyeHeight := 50 }

/-- Same iteration as `envC3x` but with `xrLocateViews` succeeding. -/
def envC3w : PollEnv :=
  { envC3x with locateViewsOk := true }

/-- The sample held from the previous frame in the C2 test iteration; its
poses are distinct from the zero pose. -/
def sampleC2 : em_sample :=
  { frame_texture_id := 7
    frame_texture_target := 1
    pose0 := { qx := 0, qy := 0, qz := 0, qw := 1, px := 1, py := 2, pz := 3 }
    pose1 := { qx := 0, qy := 0, qz := 0, qw := 1, px := 4, py := 5, pz := 6 }
    env_blend_mode := 0
    additive_black_threshold := 0
    frame_sequence_id := 42 }

/-- Experience state holding `sampleC2` as the previous sample. -/
def expC2x : EmRemoteExperience :=
  { prev_sample := some sampleC2
    nextUpMessage := 1
    passthroughBlend := 1
    eyeWidth := 100
    eyeHeight := 50 }

/-- Environment for the C2 test iteration: everything succeeds,
`shouldRender` is set, and `try_pull_sample` returns no sample. -/
def envC2x : PollEnv :=
  { waitFrameOk := true
    shouldRender := true
    predictedDisplayTime := 1000
    beginFrameOk := true
    clockOk := true
    beginFrameTime := 900
    locateViewsOk := true
    view0 := XrView.mk XrPosef.zero (XrFovf.mk 0 0 0 0)
    view1 := XrView.mk XrPosef.zero (XrFovf.mk 0 0 0 0)
    eglBeginOk := true
    pulled := none
    acquireOk := true
    imageIndex := 0
    waitImageOk := true
    convertDecodeTimeOk := true
    convertBeginTimeOk := true
    locateSpaceOk := false
    hmdPose := XrPosef.zero
    sendOk := true }

/-- A fresh sample pulled in the C6 test iterations. -/
def sampleC6 : em_sample :=
  { frame_texture_id := 9
    frame_texture_target := 1
    pose0 := { qx := 0, qy := 0, qz := 0, qw := 1, px := 7, py := 8, pz := 9 }
    pose1 := { qx := 0, qy := 0, qz := 0, qw := 1, px := 1, py := 1, pz := 1 }
    env_blend_mode := 0
    additive_black_threshold := 0
    frame_sequence_id := 5 }

/-- Environment for the C6 test iterations: everything succeeds and a fresh
sample is pulled; individual failures are injected per branch. -/
def envC6x : PollEnv :=
  { waitFrameOk := true
    shouldRender := true
    predictedDisplayTime := 1000
    beginFrameOk := true
    clockOk := true
    beginFrameTime := 900
    locateViewsOk := true
    view0 := XrView.mk XrPosef.zero (XrFovf.mk 0 0 0 0)
    view1 := XrView.mk XrPosef.zero (XrFovf.mk 0 0 0 0)
    eglBeginOk := true
    pulled := some (sampleC6, 5)
    acquireOk := true
    imageIndex := 0
    waitImageOk := true
    convertDecodeTimeOk := true
    convertBeginTimeOk := true
    locateSpaceOk := true
    hmdPose := XrPosef.zero
    sendOk := true }

/-- Experience state for the C6 test iterations. -/
def expC6x : EmRemoteExperience :=
  { prev_sample := none
    nextUpMessage := 1
    passthroughBlend := 1
    eyeWidth := 100
    eyeHeight := 50 }

/-- Environment for the C10 test iterations: wait and begin succeed; the
later calls fail per branch. -/
def envC10x : PollEnv :=
  { waitFrameOk := true
    shouldRender := true
    predictedDisplayTime := 1000
    beginFrameOk := true
    clockOk := true
    beginFrameTime := 900
    locateViewsOk := true
    view0 := XrView.mk XrPosef.zero (XrFovf.mk 0 0 0 0)
    view1 := XrView.mk XrPosef.zero (XrFovf.mk 0 0 0 0)
    eglBeginOk := false
    pulled := none
    acquireOk := true
    imageIndex := 0
    waitImageOk := true
    convertDecodeTimeOk := true
    convertBeginTimeOk := true
    locateSpaceOk := true
    hmdPose := XrPosef.zero
    sendOk := true }

/-- Experience state for the C10 test iterations. -/
def expC10x : EmRemoteExperience :=
  { prev_sample := none
    nextUpMessage := 1
    passthroughBlend := 1
    eyeWidth := 100
    eyeHeight := 50 }

/-- Fresh experience state for the C7 witness. -/
def expC7x : EmRemoteExperience :=
  { prev_sample := none
    nextUpMessage := nextUpMessageInitial
    passthroughBlend := 1
    eyeWidth := 100
    eyeHeight := 50 }

/-- A tracking UpMessage template for the C7 witness. -/
def msgC7x : UpMessage :=
  { up_message_id := 0
    has_tracking := true
    tracking_pose := XrPosef.zero
    has_frame := false
    frame_sequence_id := 0
    decode_complete_time := 0
    begin_frame_time := 0
    display_time := 0 }

/-! ## Theorems -/

/-- The probe passes a buffer through untouched whenever its marker bit is
clear, whatever the published slot holds. -/
theorem probe_pass_marker_clear (d : Option (List Nat)) (p : RTPPacket)
    (h : p.marker = false) :
    webrtcbin_srcpad_probe d p = some (p, GstPadProbeReturn.ok) := by
  cases hm : p.mappable <;> simp [webrtcbin_srcpad_probe, h, hm]

/-- On a mappable marker packet with published bytes of admissible size, the
probe appends exactly one two-byte extension element with the stamper's id
carrying those bytes. -/
theorem probe_stamps_marker (extBytes : List Nat) (p : RTPPacket)
    (hmk : p.marker = true) (hmp : p.mappable = true)
    (hb : extBytes.length ≤ 255) :
    webrtcbin_srcpad_probe (some extBytes) p =
      some ({ p with
                extensions := p.extensions ++ [(RTP_TWOBYTES_HDR_EXT_ID, extBytes)] },
            GstPadProbeReturn.ok) := by
  simp [webrtcbin_srcpad_probe, gst_rtp_buffer_add_extension_twobytes_header,
        hmk, hmp, hb, RTP_TWOBYTES_HDR_EXT_ID, RTP_TWOBYTES_HDR_EXT_MAX_SIZE,
        Nat.not_lt.mpr hb]

/-- Over a stream of mappable, initially extension-free packets, a packet
leaves the stamper carrying the extension exactly when its marker bit was
set. -/
theorem stampStream_stamps_markers (extBytes : List Nat)
    (hb : extBytes.length ≤ 255) :
    ∀ ps : List RTPPacket, (∀ q ∈ ps, q.mappable = true ∧ q.extensions = []) →
      (stampStream extBytes ps).map hasStamp = ps.map RTPPacket.marker := by
  intro ps
  induction ps with
  | nil => intro _; rfl
  | cons q qs ih =>
    intro h
    obtain ⟨hqm, hqe⟩ := h q (List.mem_cons_self q qs)
    have hrest := ih (fun r hr => h r (List.mem_cons_of_mem q hr))
    cases hmk : q.marker
    · rw [stampStream, probe_pass_marker_clear (some extBytes) q hmk]
      simp [hasStamp, hqe, hrest, hmk]
    · rw [stampStream, probe_stamps_marker extBytes q hmk hqm hb]
      simp [hasStamp, hqe, hrest, hmk, RTP_TWOBYTES_HDR_EXT_ID]

/-- C1: a clear marker bit means the buffer passes through unmodified; on a
mappable marker packet with published DownMessage bytes of size ≤ 255,
exactly one two-byte header extension with element id 1 carrying those bytes
is appended; over a stream of packets, exactly the marker packets come out
stamped. -/
theorem c1_stamper_marker_only (d : Option (List Nat)) (extBytes : List Nat)
    (p : RTPPacket) (ps : List RTPPacket)
    (hb : extBytes.length ≤ 255)
    (hps : ∀ q ∈ ps, q.mappable = true ∧ q.extensions = []) :
    (p.marker = false → webrtcbin_srcpad_probe d p = some (p, GstPadProbeReturn.ok)) ∧
    (p.marker = true → p.mappable = true →
      webrtcbin_srcpad_probe (some extBytes) p =
        some ({ p with
                  extensions := p.extensions ++ [(RTP_TWOBYTES_HDR_EXT_ID, extBytes)] },
              GstPadProbeReturn.ok)) ∧
    (stampStream extBytes ps).map hasStamp = ps.map RTPPacket.marker ∧
    (stampStream extBytes ps).countP hasStamp = ps.countP RTPPacket.marker := by
  have hmap := stampStream_stamps_markers extBytes hb ps hps
  refine ⟨fun h => probe_pass_marker_clear d p h,
          fun hmk hmp => probe_stamps_marker extBytes p hmk hmp hb, hmap, ?_⟩
  have h2 := congrArg (List.countP (fun b => b)) hmap
  simpa [List.countP_map, Function.comp] using h2

/-- C1 witness: a concrete six-packet stream (three access units with marker
patterns false,false,true / false,true / true) gets stamped on exactly the
marker packets. -/
theorem c1_stamper_marker_only_witness :
    ([4, 5].length ≤ 255 ∧
      ∀ q ∈ [⟨false, true, [], [1]⟩, ⟨false, true, [], [2]⟩, ⟨true, true, [], [3]⟩,
             ⟨false, true, [], [4]⟩, ⟨true, true, [], [5]⟩,
             (⟨true, true, [], [6]⟩ : RTPPacket)],
        q.mappable = true ∧ q.extensions = []) ∧
    ((stampStream [4, 5]
        [⟨false, true, [], [1]⟩, ⟨false, true, [], [2]⟩, ⟨true, true, [], [3]⟩,
         ⟨false, true, [], [4]⟩, ⟨true, true, [], [5]⟩,
         ⟨true, true, [], [6]⟩]).map hasStamp =
      [false, false, true, false, true, true] ∧
    (stampStream [4, 5]
        [⟨false, true, [], [1]⟩, ⟨false, true, [], [2]⟩, ⟨true, true, [], [3]⟩,
         ⟨false, true, [], [4]⟩, ⟨true, true, [], [5]⟩,
         ⟨true, true, [], [6]⟩]).countP hasStamp = 3) := by
  refine ⟨⟨by decide, by simp⟩, ?_, ?_⟩
  · have h := (c1_stamper_marker_only (some [4, 5]) [4, 5] ⟨false, true, [], []⟩
      [⟨false, true, [], [1]⟩, ⟨false, true, [], [2]⟩, ⟨true, true, [], [3]⟩,
       ⟨false, true, [], [4]⟩, ⟨true, true, [], [5]⟩, ⟨true, true, [], [6]⟩]
      (by decide) (by simp)).2.2.1
    simpa using h
  · have h := (c1_stamper_marker_only (some [4, 5]) [4, 5] ⟨false, true, [], []⟩
      [⟨false, true, [], [1]⟩, ⟨false, true, [], [2]⟩, ⟨true, true, [], [3]⟩,
       ⟨false, true, [], [4]⟩, ⟨true, true, [], [5]⟩, ⟨true, true, [], [6]⟩]
      (by decide) (by simp)).2.2.2
    rw [h]
    decide

/-- C4: the stamper probe always returns `GST_PAD_PROBE_OK` — it never drops
or blocks; in particular an oversize DownMessage or an RTP map failure lets
the buffer pass unstamped. -/
theorem c4_probe_never_drops (extBytes : List Nat) (d : Option (List Nat))
    (p : RTPPacket) :
    ((webrtcbin_srcpad_probe (some extBytes) p).map Prod.snd =
      some GstPadProbeReturn.ok) ∧
    (RTP_TWOBYTES_HDR_EXT_MAX_SIZE < extBytes.length → p.mappable = true →
      p.marker = true →
      webrtcbin_srcpad_probe (some extBytes) p = some (p, GstPadProbeReturn.ok)) ∧
    (p.mappable = false →
      webrtcbin_srcpad_probe d p = some (p, GstPadProbeReturn.ok)) := by
  refine ⟨?_, ?_, ?_⟩
  · cases hmp : p.mappable
    · simp [webrtcbin_srcpad_probe, hmp]
    · cases hmk : p.marker
      · simp [webrtcbin_srcpad_probe, hmp, hmk]
      · by_cases hl : RTP_TWOBYTES_HDR_EXT_MAX_SIZE < extBytes.length
        · simp [webrtcbin_srcpad_probe, hmp, hmk, hl]
        · rw [probe_stamps_marker extBytes p hmk hmp
            (by simpa [RTP_TWOBYTES_HDR_EXT_MAX_SIZE, Nat.not_lt] using hl)]
          rfl
  · intro hl hmp hmk
    simp [webrtcbin_srcpad_probe, hmp, hmk, hl]
  · intro hmp
    simp [webrtcbin_srcpad_probe, hmp]

/-- C4 witness: a 256-byte DownMessage passes a marker packet through
unstamped, and an unmappable buffer passes through, both with
`GST_PAD_PROBE_OK`. -/
theorem c4_probe_never_drops_witness :
    (RTP_TWOBYTES_HDR_EXT_MAX_SIZE < (List.replicate 256 7).length ∧
      (⟨true, false, [], [1]⟩ : RTPPacket).mappable = false) ∧
    ((webrtcbin_srcpad_probe (some (List.replicate 256 7))
        ⟨true, true, [], [1]⟩).map Prod.snd = some GstPadProbeReturn.ok) ∧
    (webrtcbin_srcpad_probe (some (List.replicate 256 7)) ⟨true, true, [], [1]⟩ =
      some (⟨true, true, [], [1]⟩, GstPadProbeReturn.ok)) ∧
    (webrtcbin_srcpad_probe none ⟨true, false, [], [1]⟩ =
      some (⟨true, false, [], [1]⟩, GstPadProbeReturn.ok)) := by
  have h := c4_probe_never_drops (List.replicate 256 7) none ⟨true, true, [], [1]⟩
  have h2 := c4_probe_never_drops (List.replicate 256 7) none ⟨true, false, [], [1]⟩
  exact ⟨⟨by decide, by decide⟩, h.1,
         h.2.1 (by decide) (by decide) (by decide), h2.2.2 (by decide)⟩

/-- After any number of client-connected events on a pipeline whose launch
string contains `rtppay`, the probe count on the `rtppay` src pad equals the
number of events: `webrtc_client_connected_cb` installs unconditionally. -/
theorem processClientConnections_probes (n : Nat) :
    ∀ s : EmsPipelineState, s.hasRtppay = true →
      (processClientConnections n s).rtppayProbes = s.rtppayProbes + n ∧
      (processClientConnections n s).hasRtppay = true := by
  induction n with
  | zero => intro s h; exact ⟨rfl, h⟩
  | succ n ih =>
    intro s h
    have hcb1 : (webrtc_client_connected_cb s).rtppayProbes = s.rtppayProbes + 1 := by
      simp [webrtc_client_connected_cb, ems_gstreamer_pipeline_add_payload_pad_probe, h]
    have hcb2 : (webrtc_client_connected_cb s).hasRtppay = true := by
      simp [webrtc_client_connected_cb, ems_gstreamer_pipeline_add_payload_pad_probe, h]
    obtain ⟨h1, h2⟩ := ih (webrtc_client_connected_cb s) hcb2
    refine ⟨?_, h2⟩
    show (processClientConnections n (webrtc_client_connected_cb s)).rtppayProbes =
      s.rtppayProbes + (n + 1)
    omega

/-- C5 counterexample: two client-connected events leave two stamper probes
on the `rtppay` src pad — the install path has no already-installed check, so
"at most one probe" fails. -/
theorem c5_probe_install_counterexample :
    (processClientConnections 2 emsPipelineInitial).rtppayProbes = 2 ∧
    ¬ (processClientConnections 2 emsPipelineInitial).rtppayProbes ≤ 1 := by
  decide

/-- C5 amended: `ems_gstreamer_pipeline_add_payload_pad_probe` installs the
probe unconditionally, so after `n` client-connected events exactly `n`
stamper probes are attached to the `rtppay` src pad. -/
theorem c5_probe_install_amended (n : Nat) :
    (processClientConnections n emsPipelineInitial).rtppayProbes = n := by
  have := processClientConnections_probes n emsPipelineInitial rfl
  simpa [emsPipelineInitial] using this.1

/-- The DownMessage slot is `none` after a call sequence exactly when the
initial slot was `none` and every `set_down_msg` call had a failing encode. -/
theorem setDownMsgs_foldl_none (encs : List (Option (List Nat))) :
    ∀ slot : Option (List Nat),
      encs.foldl (fun sl e => ems_gstreamer_pipeline_set_down_msg e sl) slot = none ↔
        (slot = none ∧ ∀ e ∈ encs, e = none) := by
  induction encs with
  | nil => intro slot; simp
  | cons e es ih =>
    intro slot
    rw [List.foldl_cons, ih]
    cases e <;> simp [ems_gstreamer_pipeline_set_down_msg]

/-- C9: the slot starts `NULL` at pipeline creation; with no successful
`set_down_msg` the probe's `g_bytes_get_data` read on a mappable marker
packet is the undefined `NULL` dereference (modelled as `none`), and a
well-defined read implies some earlier `set_down_msg` call encoded
successfully. -/
theorem c9_down_msg_requires_set (encs : List (Option (List Nat)))
    (p : RTPPacket) (hmk : p.marker = true) (hmp : p.mappable = true) :
    runSetDownMsgs [] = none ∧
    ((∀ e ∈ encs, e = none) →
      webrtcbin_srcpad_probe (runSetDownMsgs encs) p = none) ∧
    (webrtcbin_srcpad_probe (runSetDownMsgs encs) p ≠ none →
      ∃ e ∈ encs, e ≠ none) := by
  refine ⟨rfl, ?_, ?_⟩
  · intro hall
    have hnone : runSetDownMsgs encs = none :=
      (setDownMsgs_foldl_none encs none).mpr ⟨rfl, hall⟩
    rw [hnone]
    simp [webrtcbin_srcpad_probe, hmk, hmp]
  · intro hdef
    by_contra hnot
    push_neg at hnot
    have hall : ∀ e ∈ encs, e = none := by
      intro e he
      by_contra hne
      exact hne (hnot e he)
    have hnone : runSetDownMsgs encs = none :=
      (setDownMsgs_foldl_none encs none).mpr ⟨rfl, hall⟩
    apply hdef
    rw [hnone]
    simp [webrtcbin_srcpad_probe, hmk, hmp]

/-- C9 witness: after one failing-encode call the probe read on a mappable
marker packet is undefined; the create-time slot is `NULL`. -/
theorem c9_down_msg_requires_set_witness :
    ((⟨true, true, [], [1]⟩ : RTPPacket).marker = true ∧
      (⟨true, true, [], [1]⟩ : RTPPacket).mappable = true ∧
      ∀ e ∈ [(none : Option (List Nat))], e = none) ∧
    (runSetDownMsgs [] = none ∧
      webrtcbin_srcpad_probe (runSetDownMsgs [none]) ⟨true, true, [], [1]⟩ = none) := by
  have h := c9_down_msg_requires_set [none] ⟨true, true, [], [1]⟩ (by decide) (by decide)
  exact ⟨⟨by decide, by decide, by decide⟩, h.1, h.2.1 (by decide)⟩

/-- C8: an explicit interleaving of `ems_gstreamer_pipeline_set_down_msg`
with a concurrently running stamper probe under which the probe dereferences
the old `GBytes` after `set_down_msg` already dropped its only reference: the
probe loads the published pointer, the writer then unrefs (freeing buffer 0),
clears and republishes, and the probe's `g_bytes_get_data` then reads freed
memory.  This refutes "no probe invocation ever observes a freed or
partially replaced buffer" for the unsynchronized unref-then-store in the
source. -/
theorem c8_down_msg_race :
    raceInit.slot = some 0 ∧
    (raceRun [RaceTid.reader, RaceTid.writer, RaceTid.writer, RaceTid.writer,
        RaceTid.reader]).freed0 = true ∧
    (raceRun [RaceTid.reader, RaceTid.writer, RaceTid.writer, RaceTid.writer,
        RaceTid.reader]).readerSawBad = true := by
  decide

/-- C6: per-frame failures split exactly as the source does: a failing
`xrWaitFrame` returns `ERROR_WAITFRAME` and a failing `xrLocateViews`
returns `SHOULD_NOT_RENDER` (the loop continues in both cases), while a
failing `xrBeginFrame`, `xrAcquireSwapchainImage` or `xrWaitSwapchainImage`
terminates the process. -/
theorem c6_failure_split (env : PollEnv) (exp : EmRemoteExperience)
    (s : em_sample) (t : Int) :
    (env.waitFrameOk = false →
      em_remote_experience_poll_and_render_frame env exp =
        PollOutcome.returned EmPollRenderResult.errorWaitframe exp
          [XrEv.evWaitFrame false]) ∧
    (env.waitFrameOk = true → env.beginFrameOk = true → env.clockOk = true →
      env.locateViewsOk = false →
      em_remote_experience_poll_and_render_frame env exp =
        PollOutcome.returned EmPollRenderResult.shouldNotRender exp
          [XrEv.evWaitFrame true, XrEv.evBeginFrame true, XrEv.evClockGettime true,
           XrEv.evLocateViews false]) ∧
    (env.waitFrameOk = true → env.beginFrameOk = false →
      (em_remote_experience_poll_and_render_frame env exp).isAborted = true) ∧
    (env.waitFrameOk = true → env.beginFrameOk = true → env.clockOk = true →
      env.locateViewsOk = true → env.eglBeginOk = true → env.shouldRender = true →
      env.pulled = some (s, t) → env.acquireOk = false →
      (em_remote_experience_poll_and_render_frame env exp).isAborted = true) ∧
    (env.waitFrameOk = true → env.beginFrameOk = true → env.clockOk = true →
      env.locateViewsOk = true → env.eglBeginOk = true → env.shouldRender = true →
      env.pulled = some (s, t) → env.acquireOk = true → env.waitImageOk = false →
      (em_remote_experience_poll_and_render_frame env exp).isAborted = true) := by
  refine ⟨?_, ?_, ?_, ?_, ?_⟩ <;> intros <;>
    simp_all [em_remote_experience_poll_and_render_frame,
      em_remote_experience_inner_poll_and_render_frame, PollOutcome.isAborted]

/-- C6 witness: the five branches at a concrete iteration — failing
`xrWaitFrame` and failing `xrLocateViews` return transient results, failing
`xrBeginFrame`, acquire and wait-image abort. -/
theorem c6_failure_split_witness :
    (em_remote_experience_poll_and_render_frame { envC6x with waitFrameOk := false }
        expC6x =
      PollOutcome.returned EmPollRenderResult.errorWaitframe expC6x
        [XrEv.evWaitFrame false]) ∧
    (em_remote_experience_poll_and_render_frame { envC6x with locateViewsOk := false }
        expC6x =
      PollOutcome.returned EmPollRenderResult.shouldNotRender expC6x
        [XrEv.evWaitFrame true, XrEv.evBeginFrame true, XrEv.evClockGettime true,
         XrEv.evLocateViews false]) ∧
    ((em_remote_experience_poll_and_render_frame { envC6x with beginFrameOk := false }
        expC6x).isAborted = true) ∧
    ((em_remote_experience_poll_and_render_frame { envC6x with acquireOk := false }
        expC6x).isAborted = true) ∧
    ((em_remote_experience_poll_and_render_frame { envC6x with waitImageOk := false }
        expC6x).isAborted = true) := by
  refine ⟨?_, ?_, ?_, ?_, ?_⟩
  · exact (c6_failure_split { envC6x with waitFrameOk := false } expC6x sampleC6 5).1
      rfl
  · exact (c6_failure_split { envC6x with locateViewsOk := false } expC6x
      sampleC6 5).2.1 rfl rfl rfl rfl
  · exact (c6_failure_split { envC6x with beginFrameOk := false } expC6x
      sampleC6 5).2.2.1 rfl rfl
  · exact (c6_failure_split { envC6x with acquireOk := false } expC6x
      sampleC6 5).2.2.2.1 rfl rfl rfl rfl rfl rfl rfl rfl
  · exact (c6_failure_split { envC6x with waitImageOk := false } expC6x
      sampleC6 5).2.2.2.2 rfl rfl rfl rfl rfl rfl rfl rfl rfl

/-- C10: on the transient failure paths after a successful `xrBeginFrame` —
`clock_gettime` failure, `xrLocateViews` failure, or EGL context acquisition
failure — the iteration returns with the begun frame never ended and no
UpMessage (in particular no pose report) sent. -/
theorem c10_transient_no_endframe (env : PollEnv) (exp : EmRemoteExperience)
    (hw : env.waitFrameOk = true) (hb : env.beginFrameOk = true) :
    (env.clockOk = false →
      pollResult (em_remote_experience_poll_and_render_frame env exp) =
        some EmPollRenderResult.shouldNotRender ∧
      (pollTrace (em_remote_experience_poll_and_render_frame env exp)).countP
        isBeginFrameEv = 1 ∧
      (pollTrace (em_remote_experience_poll_and_render_frame env exp)).countP
        isEndFrameEv = 0 ∧
      (pollTrace (em_remote_experience_poll_and_render_frame env exp)).countP
        isSendUpEv = 0) ∧
    (env.clockOk = true → env.locateViewsOk = false →
      pollResult (em_remote_experience_poll_and_render_frame env exp) =
        some EmPollRenderResult.shouldNotRender ∧
      (pollTrace (em_remote_experience_poll_and_render_frame env exp)).countP
        isBeginFrameEv = 1 ∧
      (pollTrace (em_remote_experience_poll_and_render_frame env exp)).countP
        isEndFrameEv = 0 ∧
      (pollTrace (em_remote_experience_poll_and_render_frame env exp)).countP
        isSendUpEv = 0) ∧
    (env.clockOk = true → env.locateViewsOk = true → env.eglBeginOk = false →
      pollResult (em_remote_experience_poll_and_render_frame env exp) =
        some EmPollRenderResult.errorEgl ∧
      (pollTrace (em_remote_experience_poll_and_render_frame env exp)).countP
        isBeginFrameEv = 1 ∧
      (pollTrace (em_remote_experience_poll_and_render_frame env exp)).countP
        isEndFrameEv = 0 ∧
      (pollTrace (em_remote_experience_poll_and_render_frame env exp)).countP
        isSendUpEv = 0) := by
  refine ⟨?_, ?_, ?_⟩ <;> intros <;>
    simp_all [em_remote_experience_poll_and_render_frame, pollResult, pollTrace,
      isBeginFrameEv, isEndFrameEv, isSendUpEv, List.countP_cons]

/-- C10 witness: the three transient paths at concrete iterations. -/
theorem c10_transient_no_endframe_witness :
    (envC10x.waitFrameOk = true ∧ envC10x.beginFrameOk = true ∧
      envC10x.clockOk = true ∧ envC10x.locateViewsOk = true ∧
      envC10x.eglBeginOk = false) ∧
    (pollResult (em_remote_experience_poll_and_render_frame envC10x expC10x) =
        some EmPollRenderResult.errorEgl ∧
      (pollTrace (em_remote_experience_poll_and_render_frame envC10x expC10x)).countP
        isBeginFrameEv = 1 ∧
      (pollTrace (em_remote_experience_poll_and_render_frame envC10x expC10x)).countP
        isEndFrameEv = 0 ∧
      (pollTrace (em_remote_experience_poll_and_render_frame envC10x expC10x)).countP
        isSendUpEv = 0) ∧
    (pollResult
        (em_remote_experience_poll_and_render_frame { envC10x with clockOk := false }
          expC10x) =
      some EmPollRenderResult.shouldNotRender) :=
  ⟨⟨rfl, rfl, rfl, rfl, rfl⟩,
   (c10_transient_no_endframe envC10x expC10x rfl rfl).2.2 rfl rfl rfl,
   ((c10_transient_no_endframe { envC10x with clockOk := false } expC10x rfl rfl).1
     rfl).1⟩

/-- C3 counterexample: an iteration where `xrWaitFrame` succeeds with
`shouldRender = false` but `xrLocateViews` fails: `xrBeginFrame` was called
once and `xrEndFrame` never — so "exactly one begin/end pair" fails as an
unconditional statement. -/
theorem c3_begin_end_pair_counterexample :
    envC3x.waitFrameOk = true ∧ envC3x.shouldRender = false ∧
    (pollTrace (em_remote_experience_poll_and_render_frame envC3x expC3x)).countP
      isBeginFrameEv = 1 ∧
    (pollTrace (em_remote_experience_poll_and_render_frame envC3x expC3x)).countP
      isEndFrameEv = 0 := by
  decide

/-- C3 amended: when `xrWaitFrame` succeeds with `shouldRender = false` and
`xrBeginFrame`, `clock_gettime`, `xrLocateViews` and the EGL acquisition all
succeed, exactly one `xrBeginFrame`/`xrEndFrame` pair occurs and the frame
is ended with zero layers and blend mode OPAQUE. -/
theorem c3_begin_end_pair_amended (env : PollEnv) (exp : EmRemoteExperience)
    (hw : env.waitFrameOk = true) (hs : env.shouldRender = false)
    (hb : env.beginFrameOk = true) (hc : env.clockOk = true)
    (hl : env.locateViewsOk = true) (he : env.eglBeginOk = true) :
    pollResult (em_remote_experience_poll_and_render_frame env exp) =
      some EmPollRenderResult.shouldNotRender ∧
    (pollTrace (em_remote_experience_poll_and_render_frame env exp)).countP
      isBeginFrameEv = 1 ∧
    (pollTrace (em_remote_experience_poll_and_render_frame env exp)).countP
      isEndFrameEv = 1 ∧
    XrEv.evEndFrame 0 XR_ENVIRONMENT_BLEND_MODE_OPAQUE none ∈
      pollTrace (em_remote_experience_poll_and_render_frame env exp) := by
  cases hls : env.locateSpaceOk <;>
    simp [em_remote_experience_poll_and_render_frame,
      em_remote_experience_report_pose, pollResult, pollTrace,
      isBeginFrameEv, isEndFrameEv, List.countP_cons, List.countP_append,
      hw, hs, hb, hc, hl, he, hls]

/-- C3 amended witness: the no-render iteration with all intermediate calls
succeeding ends the begun frame with zero layers and OPAQUE. -/
theorem c3_begin_end_pair_amended_witness :
    (envC3w.waitFrameOk = true ∧ envC3w.shouldRender = false ∧
      envC3w.beginFrameOk = true ∧ envC3w.clockOk = true ∧
      envC3w.locateViewsOk = true ∧ envC3w.eglBeginOk = true) ∧
    (pollResult (em_remote_experience_poll_and_render_frame envC3w expC3x) =
        some EmPollRenderResult.shouldNotRender ∧
      (pollTrace (em_remote_experience_poll_and_render_frame envC3w expC3x)).countP
        isBeginFrameEv = 1 ∧
      (pollTrace (em_remote_experience_poll_and_render_frame envC3w expC3x)).countP
        isEndFrameEv = 1 ∧
      XrEv.evEndFrame 0 XR_ENVIRONMENT_BLEND_MODE_OPAQUE none ∈
        pollTrace (em_remote_experience_poll_and_render_frame envC3w expC3x)) :=
  ⟨⟨rfl, rfl, rfl, rfl, rfl, rfl⟩,
   c3_begin_end_pair_amended envC3w expC3x rfl rfl rfl rfl rfl rfl⟩

/-- C2 counterexample: at a concrete iteration with no new sample and a held
previous sample whose poses are nonzero, the call returns `REUSED_SAMPLE`
but the submitted projection layer carries the zero-initialized poses of
this iteration, not the prior sample's poses — the claim's parenthetical
fails. -/
theorem c2_reused_sample_pose_counterexample :
    pollResult (em_remote_experience_poll_and_render_frame envC2x expC2x) =
      some EmPollRenderResult.reusedSample ∧
    expC2x.prev_sample = some sampleC2 ∧
    submittedProj (em_remote_experience_poll_and_render_frame envC2x expC2x) =
      some (XrPosef.zero, XrPosef.zero) ∧
    (XrPosef.zero, XrPosef.zero) ≠ (sampleC2.pose0, sampleC2.pose1) := by
  decide

/-- C2 amended: when `try_pull_sample` returns no sample and a previous
sample is held (and the calls up to the inner render succeed), the call
returns `REUSED_SAMPLE`, the previous sample stays held, the projection
layer is still submitted — carrying this iteration's zero-initialized poses
— and no draw or swapchain acquisition happens (the compositor re-reads the
previously rendered swapchain content: the freeze-frame). -/
theorem c2_reused_sample_amended (env : PollEnv) (exp : EmRemoteExperience)
    (s : em_sample)
    (hw : env.waitFrameOk = true) (hb : env.beginFrameOk = true)
    (hc : env.clockOk = true) (hl : env.locateViewsOk = true)
    (he : env.eglBeginOk = true) (hs : env.shouldRender = true)
    (hp : env.pulled = none) (hprev : exp.prev_sample = some s) :
    pollResult (em_remote_experience_poll_and_render_frame env exp) =
      some EmPollRenderResult.reusedSample ∧
    pollPrevSample (em_remote_experience_poll_and_render_frame env exp) =
      some s ∧
    submittedProj (em_remote_experience_poll_and_render_frame env exp) =
      some (XrPosef.zero, XrPosef.zero) ∧
    (pollTrace (em_remote_experience_poll_and_render_frame env exp)).countP
      isDrawEv = 0 ∧
    (pollTrace (em_remote_experience_poll_and_render_frame env exp)).countP
      isAcquireEv = 0 := by
  cases hls : env.locateSpaceOk <;>
    simp [em_remote_experience_poll_and_render_frame,
      em_remote_experience_inner_poll_and_render_frame,
      em_remote_experience_report_pose, em_poll_render_result_include_layer,
      passthrough_composition_layer, XrCompositionLayerProjectionView.zeroInit,
      em_remote_experience_emit_upmessage,
      pollResult, pollPrevSample, pollTrace, submittedProj, firstProjPoses,
      isDrawEv, isAcquireEv, List.countP_cons, List.countP_append,
      hw, hb, hc, hl, he, hs, hp, hprev, hls]

/-- C2 amended witness: the freeze-frame iteration at the concrete state. -/
theorem c2_reused_sample_amended_witness :
    (envC2x.waitFrameOk = true ∧ envC2x.beginFrameOk = true ∧
      envC2x.clockOk = true ∧ envC2x.locateViewsOk = true ∧
      envC2x.eglBeginOk = true ∧ envC2x.shouldRender = true ∧
      envC2x.pulled = none ∧ expC2x.prev_sample = some sampleC2) ∧
    (pollResult (em_remote_experience_poll_and_render_frame envC2x expC2x) =
        some EmPollRenderResult.reusedSample ∧
      pollPrevSample (em_remote_experience_poll_and_render_frame envC2x expC2x) =
        some sampleC2 ∧
      submittedProj (em_remote_experience_poll_and_render_frame envC2x expC2x) =
        some (XrPosef.zero, XrPosef.zero) ∧
      (pollTrace (em_remote_experience_poll_and_render_frame envC2x expC2x)).countP
        isDrawEv = 0 ∧
      (pollTrace (em_remote_experience_poll_and_render_frame envC2x expC2x)).countP
        isAcquireEv = 0) :=
  ⟨⟨rfl, rfl, rfl, rfl, rfl, rfl, rfl, rfl⟩,
   c2_reused_sample_amended envC2x expC2x sampleC2 rfl rfl rfl rfl rfl rfl rfl rfl⟩

/-- The ids assigned by a run of the emitter are consecutive counter values,
as long as the 64-bit counter does not cross the signed wrap point. -/
theorem emitRun_ids (msgs : List UpMessage) :
    ∀ exp : EmRemoteExperience, exp.nextUpMessage + msgs.length ≤ 2 ^ 63 →
      (emitRun exp msgs).1 =
        (List.range msgs.length).map
          (fun k => ((exp.nextUpMessage + k : Nat) : Int)) := by
  induction msgs with
  | nil => intro exp _; simp [emitRun]
  | cons m ms ih =>
    intro exp h
    simp only [List.length_cons] at h
    have hlt : exp.nextUpMessage < 2 ^ 63 := by omega
    have hlt64 : exp.nextUpMessage + 1 < 2 ^ 64 := by
      have h63 : (2 : Nat) ^ 63 < 2 ^ 64 := by norm_num
      omega
    have hid : int64OfBits exp.nextUpMessage = (exp.nextUpMessage : Int) := by
      unfold int64OfBits
      rw [if_pos hlt]
    have hmod : (exp.nextUpMessage + 1) % 2 ^ 64 = exp.nextUpMessage + 1 :=
      Nat.mod_eq_of_lt hlt64
    have hrec := ih { exp with nextUpMessage := (exp.nextUpMessage + 1) % 2 ^ 64 }
      (by simp only [hmod]; omega)
    simp only [emitRun, em_remote_experience_emit_upmessage, List.length_cons]
    rw [hid, hrec, List.range_succ_eq_map, List.map_cons, List.map_map]
    congr 1
    apply List.map_congr_left
    intro a _
    simp only [Function.comp, hmod]
    push_cast
    ring

/-- C7: over any run of the emitter from a fresh experience (counter starts
at 1) whose length stays below the signed-wrap bound, the assigned
`up_message_id`s are strictly increasing in emission order; and each call
stamps the drawn id into the transmitted message and advances the counter by
exactly one — the id is assigned at emission, immediately before encode and
send. -/
theorem c7_up_message_id_monotonic (msgs : List UpMessage)
    (exp0 exp : EmRemoteExperience) (m : UpMessage)
    (hstart : exp0.nextUpMessage = nextUpMessageInitial)
    (hlen : msgs.length < 2 ^ 63) :
    ((emitRun exp0 msgs).1).Pairwise (· < ·) ∧
    (em_remote_experience_emit_upmessage exp m).2.1.up_message_id =
      (em_remote_experience_emit_upmessage exp m).1 ∧
    (em_remote_experience_emit_upmessage exp m).2.2.nextUpMessage =
      (exp.nextUpMessage + 1) % 2 ^ 64 := by
  refine ⟨?_, rfl, rfl⟩
  have hbound : exp0.nextUpMessage + msgs.length ≤ 2 ^ 63 := by
    rw [hstart]
    simp only [nextUpMessageInitial]
    omega
  rw [emitRun_ids msgs exp0 hbound, List.pairwise_map]
  exact (List.pairwise_lt_range msgs.length).imp
    (fun {a b} hab => by exact_mod_cast Nat.add_lt_add_left hab exp0.nextUpMessage)

/-- C7 witness: three consecutive emissions from a fresh experience carry
strictly increasing ids, and one emission stamps and sends the drawn id. -/
theorem c7_up_message_id_monotonic_witness :
    (expC7x.nextUpMessage = nextUpMessageInitial ∧
      ([msgC7x, msgC7x, msgC7x] : List UpMessage).length < 2 ^ 63) ∧
    (((emitRun expC7x [msgC7x, msgC7x, msgC7x]).1).Pairwise (· < ·) ∧
      (em_remote_experience_emit_upmessage expC7x msgC7x).2.1.up_message_id =
        (em_remote_experience_emit_upmessage expC7x msgC7x).1 ∧
      (em_remote_experience_emit_upmessage expC7x msgC7x).2.2.nextUpMessage =
        (expC7x.nextUpMessage + 1) % 2 ^ 64) :=
  ⟨⟨rfl, by norm_num⟩,
   c7_up_message_id_monotonic [msgC7x, msgC7x, msgC7x] expC7x expC7x msgC7x rfl
     (by norm_num)⟩

end ElectricMaple
